import Mathlib

/-!
Shallow embedding of the mpscpp repository: a multi-producer / single-consumer
channel (`src/unnamed/part_000`, guard `CHANNEL_HPP`) built on a dual-lock
thread-safe FIFO queue (`src/queue.hpp`, `threadsafe_queue<T>`).

The embedding is sequential: each C++ member function becomes a pure function
from the relevant state to a result together with the updated state.  Blocking
behaviour (`wait_and_pop` on an empty queue never returning when no concurrent
push arrives) is modelled by an `Option` result whose `none` means "the call
does not return".  Dereferencing a null `std::shared_ptr` (undefined behaviour
in the source) is modelled by the explicit marker `DerefResult.nullDeref`.
-/

variable {α : Type}

/-- Node chain of `threadsafe_queue<T>` (src/queue.hpp).  The list holds the
`data` field of every node from `head` to `tail` inclusive, in `next`-link
order: each entry models the node's `std::shared_ptr<T> data`, with `none`
standing for the null pointer of a dummy sentinel node.  The `next` links are
the list structure itself, so `tail` is the last entry and is reachable from
`head` by construction.  `notifies` counts the `data_cond.notify_one()` calls
performed so far (exactly one per `push`). -/
structure Queue (α : Type) where
  nodes : List (Option α)
  notifies : Nat

/-- Constructor `threadsafe_queue()` (queue.hpp line 68): `head` is a fresh
node with null `data` and `tail = head.get()`, i.e. the chain is the single
dummy sentinel.  No notification has happened yet. -/
def Queue.init : Queue α := ⟨[none], 0⟩

/-- Pointer comparison `head.get() == get_tail()` used by `wait_for_data`,
`try_pop_head` and `empty`: since head and tail are nodes of the same chain,
they are the same node exactly when the chain has a single node.  (The empty
chain never occurs; it is mapped to `true`, as both pointers would coincide.) -/
def Queue.headIsTail (q : Queue α) : Bool :=
  match q.nodes with
  | [] => true
  | [_] => true
  | _ :: _ :: _ => false

/-- Private member `pop_head()` (queue.hpp lines 25-29): detaches the head
node and advances `head` to its `next`.  The first component models the
returned `unique_ptr<node>` (`none` would be a null node pointer, which the
callers never produce because they guard with `head != tail`); its inner
`Option α` is the detached node's `data` pointer. -/
def Queue.pop_head (q : Queue α) : Option (Option α) × Queue α :=
  match q.nodes with
  | [] => (none, q)
  | d :: rest => (some d, { q with nodes := rest })

/-- Public `try_pop()` (queue.hpp lines 107-111) via `try_pop_head` (lines
45-54): under the head lock, if `head == tail` return a null `shared_ptr`;
otherwise detach the head node and return its `data`.  Never blocks. -/
def Queue.try_pop (q : Queue α) : Option α × Queue α :=
  if q.headIsTail then (none, q)
  else
    match q.pop_head with
    | (some d, q2) => (d, q2)
    | (none, q2) => (none, q2)

/-- Public `wait_and_pop()` (queue.hpp lines 95-100) via `wait_pop_head` and
`wait_for_data` (lines 30-38): waits on `data_cond` until `head != tail`, then
detaches the head node and returns its `data`.  In the sequential model an
empty queue means the wait is never satisfied, so the call does not return:
outer `none`. -/
def Queue.wait_and_pop (q : Queue α) : Option (Option α × Queue α) :=
  if q.headIsTail then none
  else
    match q.pop_head with
    | (some d, q2) => some (d, q2)
    | (none, q2) => some (none, q2)

/-- Public `push(new_value)` (queue.hpp lines 81-93): under the tail lock,
store the value into the current tail node (`tail->data = new_data`, i.e. the
last entry of the chain becomes `some v`), link a fresh dummy node after it
and advance `tail` (append `none`), then `data_cond.notify_one()` (increment
`notifies`).  Always succeeds. -/
def Queue.push (q : Queue α) (v : α) : Queue α :=
  { nodes := (q.nodes.dropLast ++ [some v]) ++ [none], notifies := q.notifies + 1 }

/-- Buffered values of the queue: the `data` of every node strictly before
`tail` (the tail node is always the dummy sentinel). -/
def Queue.toList (q : Queue α) : List α := q.nodes.dropLast.filterMap id

/-- Wait predicate of `wait_for_data` (queue.hpp line 32): the lambda
`head.get() != get_tail()`.  It depends only on queue occupancy. -/
def Queue.waitPred (q : Queue α) : Bool := !q.headIsTail

/-- Structural well-formedness of a reachable queue: the chain is a run of
value-carrying nodes followed by exactly one trailing dummy sentinel. -/
def Queue.Wf (q : Queue α) : Prop := ∃ vs : List α, q.nodes = vs.map some ++ [none]

/-- Canonical well-formed queue holding the buffered values `vs`, with
notification counter `n`. -/
def Queue.fromList (vs : List α) (n : Nat) : Queue α := ⟨vs.map some ++ [none], n⟩

/-- Result of dereferencing the `shared_ptr` returned by a queue pop, as done
by `Channel<T>::recv` and `Channel<T>::try_recv` (`return *que.wait_and_pop();`
and `return *que.try_pop();`).  When the pointer is non-null the returned
`std::optional<T>` is always engaged, holding the pointee (`value v`); when the
pointer is null the dereference is undefined behaviour in the source
(`nullDeref`) — in particular no empty `std::optional<T>` is ever produced. -/
inductive DerefResult (α : Type) where
  | value : α → DerefResult α
  | nullDeref : DerefResult α

/-- Channel core `Channel<T>` (part_000 lines 16-40): owns one queue and the
`_closed` flag. -/
structure Channel (α : Type) where
  que : Queue α
  _closed : Bool

/-- Fresh channel core as built by `make_channel<T>()` (part_000 lines
211-221): default-constructed queue, `_closed = false`. -/
def Channel.new : Channel α := ⟨Queue.init, false⟩

/-- Structural well-formedness of a channel: its queue is well-formed. -/
def Channel.Wf (c : Channel α) : Prop := c.que.Wf

/-- Member `Channel<T>::send` (part_000 lines 42-50): `que.push(val)`.  The
closed flag is neither consulted nor modified. -/
def Channel.send (c : Channel α) (v : α) : Channel α := { c with que := c.que.push v }

/-- Member `Channel<T>::close_channel` (part_000 lines 62-65): sets
`_closed = true` and nothing else — the queue is untouched and no condition
variable is notified. -/
def Channel.close_channel (c : Channel α) : Channel α := { c with _closed := true }

/-- Member `Channel<T>::closed` (part_000 lines 67-70). -/
def Channel.closed (c : Channel α) : Bool := c._closed

/-- Member `Channel<T>::recv` (part_000 lines 52-55): `return
*que.wait_and_pop();`.  Outer `none`: the wait inside `wait_and_pop` never
completes (empty queue, no concurrent push), so `recv` does not return.  When
it returns, the popped `shared_ptr` is dereferenced and wrapped into the
returned `std::optional<T>`. -/
def Channel.recv (c : Channel α) : Option (DerefResult α × Channel α) :=
  match c.que.wait_and_pop with
  | none => none
  | some (some v, q2) => some (.value v, { c with que := q2 })
  | some (none, q2) => some (.nullDeref, { c with que := q2 })

/-- Member `Channel<T>::try_recv` (part_000 lines 57-60): `return
*que.try_pop();`.  The `shared_ptr` returned by `try_pop` is dereferenced
unconditionally: a null result (empty queue) is the `nullDeref` UB path, never
an empty `std::optional<T>`. -/
def Channel.try_recv (c : Channel α) : DerefResult α × Channel α :=
  match c.que.try_pop with
  | (some v, q2) => (.value v, { c with que := q2 })
  | (none, q2) => (.nullDeref, { c with que := q2 })

/-- The fault raised by the `moved()` guards: `std::logic_error("Sender has
been moved.")` (part_000 lines 80-83) and `std::logic_error("Receiver has been
moved.")` (part_000 lines 129-132). -/
inductive MovedError where
  | senderMoved
  | receiverMoved

/-- Producer handle `Sender<T>` (part_000 lines 72-93): holds a
`shared_ptr<Channel<T>>`, which is `none` exactly when the handle has been
moved from (the moved-from `shared_ptr` is null). -/
structure Sender (α : Type) where
  channel : Option (Channel α)

/-- Consumer handle `Receiver<T>` (part_000 lines 121-191): same moved-from
representation as the producer handle. -/
structure Receiver (α : Type) where
  channel : Option (Channel α)

/-- Member `Sender<T>::send` (part_000 lines 95-107): `moved()` guard, then
`channel->send(val)`, returning `*this` (modelled as the updated handle). -/
def Sender.send (s : Sender α) (v : α) : Except MovedError (Sender α) :=
  match s.channel with
  | none => .error .senderMoved
  | some c => .ok ⟨some (c.send v)⟩

/-- Member `Sender<T>::close` (part_000 lines 109-113): `moved()` guard, then
`channel->close_channel()`. -/
def Sender.close (s : Sender α) : Except MovedError (Sender α) :=
  match s.channel with
  | none => .error .senderMoved
  | some c => .ok ⟨some c.close_channel⟩

/-- Member `Sender<T>::closed` (part_000 lines 115-119). -/
def Sender.closed (s : Sender α) : Except MovedError Bool :=
  match s.channel with
  | none => .error .senderMoved
  | some c => .ok c.closed

/-- Member `Receiver<T>::recv` (part_000 lines 193-197): `moved()` guard, then
`channel->recv()`. -/
def Receiver.recv (r : Receiver α) : Except MovedError (Option (DerefResult α × Channel α)) :=
  match r.channel with
  | none => .error .receiverMoved
  | some c => .ok c.recv

/-- Member `Receiver<T>::try_recv` (part_000 lines 199-203). -/
def Receiver.try_recv (r : Receiver α) : Except MovedError (DerefResult α × Channel α) :=
  match r.channel with
  | none => .error .receiverMoved
  | some c => .ok c.try_recv

/-- Member `Receiver<T>::closed` (part_000 lines 205-209). -/
def Receiver.closed (r : Receiver α) : Except MovedError Bool :=
  match r.channel with
  | none => .error .receiverMoved
  | some c => .ok c.closed

/-- State of `Receiver<T>::iterator` (part_000 lines 147-182): `receiver` is
the back-pointer to the consumer handle (`none` models the null pointer of the
End state, `some a` a live pointer with address `a`); `current` is the cached
prefetched value (`std::optional<T> current`). -/
structure ReceiverIterator (α : Type) where
  receiver : Option Nat
  current : Option α

/-- Default-constructed iterator `iterator()` (part_000 line 161), also the
value returned by `Receiver<T>::end()` (part_000 lines 188-190): null
`receiver`, empty `current`. -/
def iterEnd : ReceiverIterator α := ⟨none, none⟩

/-- Member `iterator::operator==` (part_000 lines 175-178): `true` exactly
when both back-pointers are null; any other combination returns `false`. -/
def iterEq (a b : ReceiverIterator α) : Bool :=
  match a.receiver, b.receiver with
  | none, none => true
  | _, _ => false

/-- Member `iterator::operator!=` (part_000 lines 179-181): negation of
`operator==`. -/
def iterNe (a b : ReceiverIterator α) : Bool := !iterEq a b

/-- The `while(true)` loop of `Receiver<T>::iterator::next` (part_000 lines
223-238), one C++ loop iteration per recursive step, acting on the channel the
iterator's receiver refers to.  Result `some (none, c)`: the closed check hit,
the iterator transitions to End (`receiver = nullptr`, `current.reset()`).
Result `some (some v, c)`: the blocking `recv` yielded `v`, which is cached
(`current.emplace`).  Result `none`: the call never returns — either `recv`
blocked forever on an empty open queue, or (fuel exhaustion) the `continue`
branch looped without bound; the `continue` branch is only reachable through the
null-`shared_ptr` dereference path, which never occurs on well-formed queues.
Each productive `recv` removes one node, so `fuel` is instantiated with the
node count of the chain. -/
def iterLoop : Nat → Channel α → Option (Option α × Channel α)
  | 0, c =>
    if c._closed then some (none, c)
    else
      match c.recv with
      | none => none
      | some (.value v, c2) => some (some v, c2)
      | some (.nullDeref, _) => none
  | fuel + 1, c =>
    if c._closed then some (none, c)
    else
      match c.recv with
      | none => none
      | some (.value v, c2) => some (some v, c2)
      | some (.nullDeref, c2) => iterLoop fuel c2

/-- Member `iterator::operator++` via `next()` (part_000 lines 170-173 and
223-238): a null `receiver` returns immediately (End is absorbing); otherwise
the loop runs, either caching a received value (staying Active with the same
back-pointer) or transitioning to End. -/
def iterSucc (it : ReceiverIterator α) (c : Channel α) :
    Option (ReceiverIterator α × Channel α) :=
  match it.receiver with
  | none => some (it, c)
  | some r =>
    match iterLoop c.que.nodes.length c with
    | none => none
    | some (none, c2) => some (⟨none, none⟩, c2)
    | some (some v, c2) => some (⟨some r, some v⟩, c2)

/-- Constructor `iterator(Receiver<T>&)` as invoked by `Receiver<T>::begin()`
(part_000 lines 162-166 and 184-186): the back-pointer is set to the receiver
(modelled with address `0`, there being a single consumer); if the channel is
already closed the pointer is immediately nulled (End) with no receive
performed, otherwise `next()` runs. -/
def Receiver.begin (c : Channel α) : Option (ReceiverIterator α × Channel α) :=
  if c._closed then some (⟨none, none⟩, c)
  else
    match iterLoop c.que.nodes.length c with
    | none => none
    | some (none, c2) => some (⟨none, none⟩, c2)
    | some (some v, c2) => some (⟨some 0, some v⟩, c2)

/-- One sequential run of `for (it = begin; it != end; ++it) use(*it);` after
`begin` has produced `it`: collects the dereferenced values in order.  `none`
covers every non-returning or faulting outcome (a `++` that blocks forever in
`recv`, dereferencing an iterator with empty `current`, fuel exhaustion); the
fuel passed by `iterDrain` exceeds the node count, and every Active step
consumes a node, so exhaustion is unreachable there. -/
def drainLoop : Nat → ReceiverIterator α → Channel α → Option (List α)
  | _, ⟨none, _⟩, _ => some []
  | 0, _, _ => none
  | fuel + 1, it, c =>
    match it.current with
    | none => none
    | some v =>
      match iterSucc it c with
      | none => none
      | some (it2, c2) =>
        match drainLoop fuel it2 c2 with
        | none => none
        | some vs => some (v :: vs)

/-- Full sequential iteration of a consumer handle: `begin`, then the
`drainLoop`.  `some vs`: the loop terminated (iterator reached End) having
yielded `vs`.  `none`: the iteration never terminates (blocked in `recv`). -/
def iterDrain (c : Channel α) : Option (List α) :=
  match Receiver.begin c with
  | none => none
  | some (it, c2) => drainLoop (c2.que.nodes.length + 1) it c2

/-- Sequence of `send` calls from a single thread. -/
def sendAll (c : Channel α) (vs : List α) : Channel α := vs.foldl Channel.send c

/-- Sequence of `n` successive `recv` calls, collecting the received values in
order; stops early if a `recv` blocks (never returns). -/
def recvN : Nat → Channel α → List α
  | 0, _ => []
  | n + 1, c =>
    match c.recv with
    | none => []
    | some (.value v, c2) => v :: recvN n c2
    | some (.nullDeref, c2) => recvN n c2

/-! Helper lemmas about the canonical well-formed queues. -/

theorem Queue.push_fromList (vs : List α) (n : Nat) (v : α) :
    (Queue.fromList vs n).push v = Queue.fromList (vs ++ [v]) (n + 1) := by
  simp [Queue.fromList, Queue.push]

theorem Queue.toList_fromList (vs : List α) (n : Nat) :
    (Queue.fromList vs n).toList = vs := by
  simp [Queue.fromList, Queue.toList]

theorem Queue.toList_push (q : Queue α) (v : α) :
    (q.push v).toList = q.toList ++ [v] := by
  simp [Queue.push, Queue.toList]

theorem Queue.headIsTail_fromList_nil (n : Nat) :
    (Queue.fromList ([] : List α) n).headIsTail = true := rfl

theorem Queue.headIsTail_fromList_cons (v : α) (vs : List α) (n : Nat) :
    (Queue.fromList (v :: vs) n).headIsTail = false := by
  cases vs <;> rfl

theorem Queue.try_pop_fromList_nil (n : Nat) :
    (Queue.fromList ([] : List α) n).try_pop = (none, Queue.fromList [] n) := rfl

theorem Queue.try_pop_fromList_cons (v : α) (vs : List α) (n : Nat) :
    (Queue.fromList (v :: vs) n).try_pop = (some v, Queue.fromList vs n) := by
  cases vs <;> rfl

theorem Queue.wait_and_pop_fromList_nil (n : Nat) :
    (Queue.fromList ([] : List α) n).wait_and_pop = none := rfl

theorem Queue.wait_and_pop_fromList_cons (v : α) (vs : List α) (n : Nat) :
    (Queue.fromList (v :: vs) n).wait_and_pop = some (some v, Queue.fromList vs n) := by
  cases vs <;> rfl

theorem Queue.Wf.exists_fromList {q : Queue α} (h : q.Wf) :
    ∃ vs n, q = Queue.fromList vs n := by
  obtain ⟨vs, hv⟩ := h
  exact ⟨vs, q.notifies, by cases q; simp_all [Queue.fromList]⟩

theorem Queue.fromList_wf (vs : List α) (n : Nat) : (Queue.fromList vs n).Wf := ⟨vs, rfl⟩

theorem Channel.recv_fromList_nil (n : Nat) (b : Bool) :
    (Channel.mk (Queue.fromList ([] : List α) n) b).recv = none := rfl

theorem Channel.recv_fromList_cons (v : α) (vs : List α) (n : Nat) (b : Bool) :
    (Channel.mk (Queue.fromList (v :: vs) n) b).recv
      = some (.value v, Channel.mk (Queue.fromList vs n) b) := by
  cases vs <;> rfl

/-- C1: on an empty channel — freshly constructed and open, or closed —
`Channel::try_recv` dereferences the null `shared_ptr` returned by
`threadsafe_queue::try_pop` (undefined behaviour, `nullDeref`) instead of
returning an empty optional, so the code never produces the "no value" result
the claim describes; on a channel buffering 7 then 8 it does return the front
value 7. -/
theorem C1_try_recv_empty_null_deref :
    ((Channel.new : Channel Nat).try_recv).1 = DerefResult.nullDeref
    ∧ (((Channel.new : Channel Nat).close_channel).try_recv).1 = DerefResult.nullDeref
    ∧ ((((Channel.new : Channel Nat).send 7).send 8).try_recv).1 = DerefResult.value 7 :=
  ⟨rfl, rfl, rfl⟩

/-- C2: `close_channel` only sets the flag: the queue — including its
`notify_one` count — is untouched, the `wait_for_data` predicate ignores the
closed flag (it reads only `head`/`tail`), and on a channel whose wait
predicate is false (empty queue, a receiver blocked in `recv`) the predicate
is still false after closing, so the blocked receiver is not woken. -/
theorem C2_close_does_not_wake (c : Channel α) (h : c.que.waitPred = false) :
    (c.close_channel)._closed = true
    ∧ (c.close_channel).que = c.que
    ∧ (c.close_channel).que.notifies = c.que.notifies
    ∧ (∀ q : Queue α, (Channel.mk q true).que.waitPred = (Channel.mk q false).que.waitPred)
    ∧ (c.close_channel).que.waitPred = false :=
  ⟨rfl, rfl, rfl, fun _ => rfl, h⟩

theorem C2_close_does_not_wake_witness :
    (Channel.new : Channel Nat).que.waitPred = false
    ∧ ((Channel.new : Channel Nat).close_channel)._closed = true
    ∧ ((Channel.new : Channel Nat).close_channel).que.waitPred = false :=
  ⟨rfl, (C2_close_does_not_wake Channel.new rfl).1,
    (C2_close_does_not_wake Channel.new rfl).2.2.2.2⟩

/-- C5: `send` succeeds in every channel state: it appends the value to the
buffered values, leaves the closed flag unchanged (also when it is `true`),
and on a live producer handle `Sender::send` returns `ok` — the closed flag
never rejects a send or turns it into an error. -/
theorem C5_send_always_succeeds (c : Channel α) (v : α) :
    (c.send v).que.toList = c.que.toList ++ [v]
    ∧ (c.send v)._closed = c._closed
    ∧ (Sender.mk (some c)).send v = .ok ⟨some (c.send v)⟩ :=
  ⟨Queue.toList_push c.que v, rfl, rfl⟩

/-- C6: every public operation of a moved-from handle (null internal channel
pointer) raises the corresponding use-after-relocation logic error and never
returns a value. -/
theorem C6_moved_handle_faults (s : Sender α) (r : Receiver α) (v : α)
    (hs : s.channel = none) (hr : r.channel = none) :
    s.send v = .error .senderMoved
    ∧ s.close = .error .senderMoved
    ∧ s.closed = .error .senderMoved
    ∧ r.recv = .error .receiverMoved
    ∧ r.try_recv = .error .receiverMoved
    ∧ Receiver.closed r = .error .receiverMoved := by
  simp [Sender.send, Sender.close, Sender.closed, Receiver.recv, Receiver.try_recv,
    Receiver.closed, hs, hr]

theorem C6_moved_handle_faults_witness :
    (Sender.mk (α := Nat) none).send 0 = .error .senderMoved
    ∧ (Receiver.mk (α := Nat) none).recv = .error .receiverMoved :=
  ⟨(C6_moved_handle_faults ⟨none⟩ ⟨none⟩ 0 rfl rfl).1,
    (C6_moved_handle_faults ⟨none⟩ ⟨none⟩ 0 rfl rfl).2.2.2.1⟩

/-- C7: when the channel is already closed at iterator construction, the
iterator built by `begin` is immediately the End iterator (equal to `end()`),
and the channel — in particular its queue — is returned untouched: no receive
is performed. -/
theorem C7_closed_at_begin_is_end (c : Channel α) (h : c._closed = true) :
    Receiver.begin c = some (iterEnd, c)
    ∧ iterEq (iterEnd : ReceiverIterator α) iterEnd = true := by
  refine ⟨?_, rfl⟩
  simp [Receiver.begin, h, iterEnd]

theorem C7_closed_at_begin_is_end_witness :
    Receiver.begin (((Channel.new : Channel Nat).send 7).close_channel)
      = some (iterEnd, ((Channel.new : Channel Nat).send 7).close_channel) :=
  (C7_closed_at_begin_is_end (((Channel.new : Channel Nat).send 7).close_channel) rfl).1

/-- C8: `operator==` returns `true` exactly when both iterators are End (null
back-pointer); an Active iterator is never equal to anything, even an iterator
with the same back-pointer and cached value; `operator!=` is the negation of
`operator==`. -/
theorem C8_iterator_equality (a b : ReceiverIterator α) :
    (iterEq a b = true ↔ a.receiver = none ∧ b.receiver = none)
    ∧ (∀ p : Nat, a.receiver = some p → iterEq a b = false)
    ∧ iterNe a b = !iterEq a b := by
  refine ⟨?_, ?_, rfl⟩
  · cases a with
    | mk ar ac => cases b with
      | mk br bc => cases ar <;> cases br <;> simp [iterEq]
  · intro p hp
    cases hb : b.receiver <;> simp [iterEq, hp, hb]

theorem C8_iterator_equality_witness :
    iterEq (⟨some 0, some 3⟩ : ReceiverIterator Nat) ⟨some 0, some 3⟩ = false :=
  (C8_iterator_equality ⟨some 0, some 3⟩ ⟨some 0, some 3⟩).2.1 0 rfl

theorem sendAll_fromList (vs : List α) (ws : List α) (n : Nat) (b : Bool) :
    sendAll (Channel.mk (Queue.fromList ws n) b) vs
      = Channel.mk (Queue.fromList (ws ++ vs) (n + vs.length)) b := by
  induction vs generalizing ws n with
  | nil => simp [sendAll]
  | cons v vs ih =>
    have h1 : sendAll (Channel.mk (Queue.fromList ws n) b) (v :: vs)
        = sendAll (Channel.mk (Queue.fromList (ws ++ [v]) (n + 1)) b) vs := by
      simp [sendAll, Channel.send, Queue.push_fromList]
    rw [h1, ih, List.append_assoc, List.singleton_append]
    congr 2
    simp [List.length_cons]
    omega

theorem recvN_fromList (vs : List α) (n : Nat) (b : Bool) :
    recvN vs.length (Channel.mk (Queue.fromList vs n) b) = vs := by
  induction vs generalizing n with
  | nil => rfl
  | cons v ws ih => simp [recvN, Channel.recv_fromList_cons, ih]

/-- C3: strict FIFO for a single producing thread: sending the values of any
list `vs` in order into a fresh channel and then performing `vs.length`
successive blocking receives yields exactly `vs`, in the same order (push
enqueues at tail, pop dequeues at head). -/
theorem C3_fifo_single_producer (vs : List α) :
    recvN vs.length (sendAll Channel.new vs) = vs := by
  have hnew : (Channel.new : Channel α) = Channel.mk (Queue.fromList [] 0) false := rfl
  rw [hnew, sendAll_fromList vs [] 0 false]
  simpa using recvN_fromList vs (0 + vs.length) false

/-- C9: the structural queue invariant.  The constructor establishes
well-formedness (a single dummy sentinel); every well-formed queue has a
non-empty node chain (so `head` and `tail` are non-null and `tail`, the last
entry of the chain, is reachable from `head` through the `next` links that the
chain models), with `head == tail` exactly when no value is buffered; `push`
preserves well-formedness and appends exactly its value; a successful
`try_pop` or `wait_and_pop` preserves well-formedness and removes exactly the
front value — no value is duplicated or lost. -/
theorem C9_queue_invariant :
    (Queue.init : Queue α).Wf
    ∧ (∀ q : Queue α, q.Wf → q.nodes ≠ [] ∧ (q.headIsTail = true ↔ q.toList = []))
    ∧ (∀ (q : Queue α) (v : α), q.Wf → (q.push v).Wf ∧ (q.push v).toList = q.toList ++ [v])
    ∧ (∀ (q : Queue α) (v : α) (q2 : Queue α), q.Wf → q.try_pop = (some v, q2) →
        q2.Wf ∧ q.toList = v :: q2.toList)
    ∧ (∀ (q : Queue α) (d : Option α) (q2 : Queue α), q.Wf → q.wait_and_pop = some (d, q2) →
        q2.Wf ∧ ∃ v : α, d = some v ∧ q.toList = v :: q2.toList) := by
  refine ⟨⟨[], rfl⟩, ?_, ?_, ?_, ?_⟩
  · intro q hq
    obtain ⟨vs, n, rfl⟩ := hq.exists_fromList
    refine ⟨by simp [Queue.fromList], ?_⟩
    cases vs with
    | nil => simp [Queue.headIsTail_fromList_nil, Queue.toList_fromList]
    | cons w ws => simp [Queue.headIsTail_fromList_cons, Queue.toList_fromList]
  · intro q v hq
    obtain ⟨vs, n, rfl⟩ := hq.exists_fromList
    rw [Queue.push_fromList]
    exact ⟨Queue.fromList_wf _ _, by simp [Queue.toList_fromList]⟩
  · intro q v q2 hq hpop
    obtain ⟨vs, n, rfl⟩ := hq.exists_fromList
    cases vs with
    | nil =>
      rw [Queue.try_pop_fromList_nil] at hpop
      exact absurd hpop (by simp)
    | cons w ws =>
      rw [Queue.try_pop_fromList_cons] at hpop
      have h1 : some w = some v := congrArg Prod.fst hpop
      have h2 : Queue.fromList ws n = q2 := congrArg Prod.snd hpop
      injection h1 with h1
      subst h1; subst h2
      exact ⟨Queue.fromList_wf _ _, by simp [Queue.toList_fromList]⟩
  · intro q d q2 hq hpop
    obtain ⟨vs, n, rfl⟩ := hq.exists_fromList
    cases vs with
    | nil =>
      rw [Queue.wait_and_pop_fromList_nil] at hpop
      exact absurd hpop (by simp)
    | cons w ws =>
      rw [Queue.wait_and_pop_fromList_cons] at hpop
      injection hpop with h3
      have h1 : some w = d := congrArg Prod.fst h3
      have h2 : Queue.fromList ws n = q2 := congrArg Prod.snd h3
      subst h1; subst h2
      exact ⟨Queue.fromList_wf _ _, w, rfl, by simp [Queue.toList_fromList]⟩

theorem C9_queue_invariant_witness :
    ((Queue.init : Queue Nat).push 3).Wf
    ∧ ((Queue.init : Queue Nat).push 3).toList = (Queue.init : Queue Nat).toList ++ [3] :=
  (C9_queue_invariant (α := Nat)).2.2.1 Queue.init 3 (C9_queue_invariant (α := Nat)).1

/-- C10: on a well-formed channel, whenever the blocking `recv` returns, the
returned optional is engaged (it is built by dereferencing a non-null
`shared_ptr`, so the "no value, channel closed" outcome is unreachable), and
on an empty queue — open or closed — `recv` does not return at all. -/
theorem C10_recv_never_empty (c : Channel α) (h : c.Wf) :
    (∀ (r : DerefResult α) (c2 : Channel α), c.recv = some (r, c2) → ∃ v : α, r = .value v)
    ∧ (c.que.toList = [] → c.recv = none) := by
  obtain ⟨q, b⟩ := c
  have h2 : q.Wf := h
  obtain ⟨vs, n, rfl⟩ := h2.exists_fromList
  cases vs with
  | nil =>
    refine ⟨?_, fun _ => Channel.recv_fromList_nil n b⟩
    intro r c2 hr
    rw [Channel.recv_fromList_nil] at hr
    exact absurd hr (by simp)
  | cons w ws =>
    refine ⟨?_, ?_⟩
    · intro r c2 hr
      rw [Channel.recv_fromList_cons] at hr
      injection hr with h3
      exact ⟨w, (congrArg Prod.fst h3).symm⟩
    · intro ht
      simp [Queue.toList_fromList] at ht

/-- C4 counterexample: exactly five values (1..5) are sent into a fresh
channel and the channel is then closed; iterating the consumer handle yields
no values at all — the iterator constructor sees the closed flag and goes
straight to End, dropping the five buffered values — instead of the five
values the claim requires. -/
theorem C4_closed_channel_iteration_counterexample :
    iterDrain ((((((Channel.new : Channel Nat).send 1).send 2).send 3).send 4).send 5).close_channel
      = some []
    ∧ iterDrain
        ((((((Channel.new : Channel Nat).send 1).send 2).send 3).send 4).send 5).close_channel
      ≠ some [1, 2, 3, 4, 5] :=
  ⟨rfl, by decide⟩

set_option maxHeartbeats 2000000 in
/-- C4 amended: after five values are sent on an open channel, `begin` and
four increments yield the five values in send order and drain the queue; if
the channel is closed at that point, the next increment reaches End (no sixth
value); but if the channel is still open, a full sequential iteration blocks
forever in the sixth advance (`iterDrain = none`) — the claimed behaviour
needs close to land exactly between the fifth yield and the sixth advance,
and iterating after close yields nothing (see the counterexample). -/
theorem C4_iteration_five_values_amended (v1 v2 v3 v4 v5 : α) :
    ∃ c1 c2 c3 c4 c5 : Channel α,
      Receiver.begin (((((Channel.new.send v1).send v2).send v3).send v4).send v5)
        = some (⟨some 0, some v1⟩, c1)
      ∧ iterSucc ⟨some 0, some v1⟩ c1 = some (⟨some 0, some v2⟩, c2)
      ∧ iterSucc ⟨some 0, some v2⟩ c2 = some (⟨some 0, some v3⟩, c3)
      ∧ iterSucc ⟨some 0, some v3⟩ c3 = some (⟨some 0, some v4⟩, c4)
      ∧ iterSucc ⟨some 0, some v4⟩ c4 = some (⟨some 0, some v5⟩, c5)
      ∧ c5.que.toList = []
      ∧ c5._closed = false
      ∧ iterSucc ⟨some 0, some v5⟩ (c5.close_channel) = some (iterEnd, c5.close_channel)
      ∧ iterDrain (((((Channel.new.send v1).send v2).send v3).send v4).send v5) = none :=
  ⟨⟨⟨[some v2, some v3, some v4, some v5, none], 5⟩, false⟩,
    ⟨⟨[some v3, some v4, some v5, none], 5⟩, false⟩,
    ⟨⟨[some v4, some v5, none], 5⟩, false⟩,
    ⟨⟨[some v5, none], 5⟩, false⟩,
    ⟨⟨[none], 5⟩, false⟩,
    rfl, rfl, rfl, rfl, rfl, rfl, rfl, rfl, rfl⟩

theorem C10_recv_never_empty_witness :
    (∃ v : Nat, (DerefResult.value 7 : DerefResult Nat) = .value v)
    ∧ (Channel.new : Channel Nat).recv = none :=
  ⟨(C10_recv_never_empty (Channel.mk (Queue.fromList [7] 1) true) ⟨[7], rfl⟩).1
      (.value 7) (Channel.mk (Queue.fromList [] 1) true) rfl,
    (C10_recv_never_empty Channel.new ⟨[], rfl⟩).2 rfl⟩
